import Mathlib

/-!
Shallow embedding of the guardup-proxy gateway (src/server.ts) and proofs
about its routing, directory resolution, error mapping, response hardening
and request lifecycle.  Definitions are transcribed from the TypeScript
source; the one component the spec describes but the source does not
contain (the Stream Duplicator) is modelled from the spec and marked so.
-/

set_option autoImplicit false

namespace GuardUp

/-- The character list of a string (its UTF-32 code points, in order). -/
def chars (s : String) : List Char := s.data

/-- Boolean test that the first list is an initial segment of the second. -/
def leadsWith : List Char → List Char → Bool
  | [], _ => true
  | _ :: _, [] => false
  | a :: as, b :: bs => a == b && leadsWith as bs

/-- Boolean test that the first list occurs contiguously inside the second.
Embeds the JavaScript `String.prototype.includes` used by the error
dispatch in `handleRequest`. -/
def containsSeq : List Char → List Char → Bool
  | needle, [] => needle.isEmpty
  | needle, c :: cs => leadsWith needle (c :: cs) || containsSeq needle cs

/-- `hay.includes needle` on strings. -/
def containsSub (hay needle : String) : Bool := containsSeq (chars needle) (chars hay)

/-- `s.startsWith(pre)` on strings. -/
def startsWithStr (s pre : String) : Bool := leadsWith (chars pre) (chars s)

/-- JavaScript `String.prototype.split` with a one-character separator:
splits at every occurrence, keeping empty pieces. -/
def splitChar (sep : Char) : List Char → List (List Char)
  | [] => [[]]
  | c :: cs =>
    match splitChar sep cs with
    | [] => [[]]
    | g :: gs => if c == sep then [] :: g :: gs else (c :: g) :: gs

/-- `host.split('.')` from `extractProxyId`. -/
def jsSplitDot (s : String) : List String := (splitChar '.' (chars s)).map String.mk

/-- Default value of `CONFIG.WEB_APP_API_BASE` (src/server.ts line 12). -/
def WEB_APP_API_BASE : String := "https://guardup.ai/api"

/-- The directory lookup URL built in `fetchTargetUrl` (line 100):
`${CONFIG.WEB_APP_API_BASE}/servers/${proxyId}`. -/
def directoryFetchUrl (proxyId : String) : String :=
  WEB_APP_API_BASE ++ "/servers/" ++ proxyId

/-- `extractProxyId` (src/server.ts lines 144-150): split the host header on
dots; fewer than three labels is an error, otherwise the first label is the
proxy id. -/
def extractProxyId (host : String) : Except String String :=
  if (jsSplitDot host).length < 3 then
    Except.error "Invalid host format. Expected format: <proxy-id>.<domain>.<tld>"
  else
    Except.ok ((jsSplitDot host).headD "")

/-- JSON values as produced by `response.json()`. -/
inductive Json where
  | null
  | bool (b : Bool)
  | num (n : Int)
  | str (s : String)
  | arr (elems : List Json)
  | obj (fields : List (String × Json))

/-- JavaScript property access `data.url` on a parsed JSON value: only an
object yields a value, every other shape yields `undefined` (`none`). -/
def Json.getField : Json → String → Option Json
  | Json.obj fields, key => (fields.find? (fun p => p.1 == key)).map (fun p => p.2)
  | _, _ => none

/-- The observable outcome of the single `fetch` to the directory service:
either the network layer failed, or a response arrived with a status, a
status text, and a body (`none` when the body is not parseable as JSON). -/
inductive DirectoryOutcome where
  | networkError (msg : String)
  | response (status : Nat) (statusText : String) (body : Option Json)

/-- `Response.ok` per the fetch standard: status in the range 200-299. -/
def responseOk (status : Nat) : Bool := 200 ≤ status && status ≤ 299

/-- The message of the error thrown for a non-ok directory status
(src/server.ts line 119). -/
def fetchFailureMessage (proxyId : String) (status : Nat) (statusText : String) : String :=
  "Failed to fetch MCP server URL for ID: " ++ proxyId ++
    ". Status: " ++ toString status ++ " " ++ statusText

/-- `fetchTargetUrl` (src/server.ts lines 99-136): one directory call, then
status and shape checks; every failure is a thrown `Error` whose message
string is what `handleRequest` later dispatches on. -/
def fetchTargetUrl (proxyId : String) (dir : DirectoryOutcome) : Except String String :=
  match dir with
  | DirectoryOutcome.networkError msg =>
      Except.error ("Network error when fetching MCP server URL: " ++ msg)
  | DirectoryOutcome.response status statusText body =>
      if status == 403 then
        Except.error "Permission denied: additional authentication required (e.g., two-factor authentication)"
      else if !responseOk status then
        Except.error (fetchFailureMessage proxyId status statusText)
      else
        match body with
        | none => Except.error "Invalid JSON response from server"
        | some data =>
            match data.getField "url" with
            | some (Json.str url) => Except.ok url
            | _ => Except.error "Invalid response format from server"

/-- A parsed absolute URL, restricted to the http/https shapes the gateway
handles: scheme, host (with optional port), pathname, search. -/
structure URLRec where
  scheme : String
  host : String
  pathname : String
  search : String
deriving Repr, DecidableEq

/-- `URL.origin`: scheme, separator, host. -/
def URLRec.origin (u : URLRec) : String := u.scheme ++ "://" ++ u.host

/-- Modelled from the WHATWG `new URL(targetUrl)` constructor used at
src/server.ts line 196, restricted to absolute http/https URLs of the form
`scheme://host[/path][?query][#fragment]`; anything else fails. An empty
path normalises to `/`. -/
def parseHttpUrl (s : String) : Option URLRec :=
  let parseRest := fun (scheme : String) (rest : List Char) =>
    let hostEnd := fun (c : Char) => c == '/' || c == '?' || c == '#'
    let host := rest.takeWhile (fun c => !hostEnd c)
    let afterHost := rest.dropWhile (fun c => !hostEnd c)
    if host.isEmpty then none
    else
      let path := afterHost.takeWhile (fun c => c != '?' && c != '#')
      let afterPath := afterHost.dropWhile (fun c => c != '?' && c != '#')
      let search := afterPath.takeWhile (fun c => c != '#')
      some { scheme := scheme, host := String.mk host,
             pathname := if path.isEmpty then "/" else String.mk path,
             search := String.mk search }
  if startsWithStr s "https://" then parseRest "https" ((chars s).drop 8)
  else if startsWithStr s "http://" then parseRest "http" ((chars s).drop 7)
  else none

/-- Node legacy `url.parse(req.url).path`: pathname plus query, i.e.
everything before the fragment. -/
def legacyParsePath (u : String) : String :=
  String.mk ((chars u).takeWhile (fun c => c != '#'))

/-- `target.pathname.replace(/\/+$/, '')` (src/server.ts line 203): remove
every trailing slash. -/
def stripTrailingSlashes (s : String) : String :=
  String.mk (((chars s).reverse.dropWhile (fun c => c == '/')).reverse)

/-- What `proxy.web` is handed on the forwarding path: the target origin
and the rewritten request URL. -/
structure ForwardSpec where
  targetOrigin : String
  rewrittenUrl : String
deriving Repr, DecidableEq

/-- What the client-facing side of `handleRequest` does: either an
immediate status/body response, or a handoff to the proxy engine. -/
inductive ClientReply where
  | reply (status : Nat) (body : String)
  | forwarded (spec : ForwardSpec)
deriving Repr, DecidableEq

/-- The observable effects of one `handleRequest` run: the client reply,
how many directory fetches were made, whether `clearTimeout` ran inside the
handler (the catch path), and whether the `res.on('close', ...)` handler
that clears the timer was registered (the forwarding path). -/
structure HandleResult where
  reply : ClientReply
  directoryAttempts : Nat
  timerClearedInHandler : Bool
  closeHandlerRegistered : Bool
deriving Repr, DecidableEq

/-- The per-request deadline timer is eventually cleared iff the handler
cleared it synchronously or registered the close handler that clears it. -/
def HandleResult.timerEventuallyCleared (r : HandleResult) : Bool :=
  r.timerClearedInHandler || r.closeHandlerRegistered

/-- The catch block of `handleRequest` (src/server.ts lines 238-257):
substring dispatch on the caught error message to a status code and a
client-visible body. -/
def mapCaughtError (msg : String) : Nat × String :=
  if containsSub msg "Permission denied" then (403, "Permission denied")
  else if containsSub msg "Invalid host format" then (400, msg)
  else if containsSub msg "Failed to fetch" || containsSub msg "Network error" then
    (502, "Unable to connect to the upstream server")
  else if containsSub msg "Invalid JSON" || containsSub msg "Invalid response format" then
    (502, "Invalid response from the upstream server")
  else (500, "Internal server error")

/-- `handleRequest` (src/server.ts lines 158-262). Inputs: the host header
(absent or present), the request URL, the request body, and the outcome of
the directory call. The body stream is an argument because the real
handler receives it, but no line of the handler reads it. -/
def handleRequest (host : Option String) (reqUrl : String) (bodyStream : String)
    (dir : DirectoryOutcome) : HandleResult :=
  match host with
  | none =>
      { reply := ClientReply.reply 400 "Host header is missing",
        directoryAttempts := 0,
        timerClearedInHandler := false,
        closeHandlerRegistered := false }
  | some h =>
      match extractProxyId h with
      | Except.error msg =>
          { reply := ClientReply.reply (mapCaughtError msg).1 (mapCaughtError msg).2,
            directoryAttempts := 0,
            timerClearedInHandler := true,
            closeHandlerRegistered := false }
      | Except.ok proxyId =>
          match fetchTargetUrl proxyId dir with
          | Except.error msg =>
              { reply := ClientReply.reply (mapCaughtError msg).1 (mapCaughtError msg).2,
                directoryAttempts := 1,
                timerClearedInHandler := true,
                closeHandlerRegistered := false }
          | Except.ok targetUrl =>
              match parseHttpUrl targetUrl with
              | none =>
                  { reply := ClientReply.reply
                      (mapCaughtError ("Invalid target URL format: " ++ targetUrl)).1
                      (mapCaughtError ("Invalid target URL format: " ++ targetUrl)).2,
                    directoryAttempts := 1,
                    timerClearedInHandler := true,
                    closeHandlerRegistered := false }
              | some target =>
                  let p := legacyParsePath reqUrl
                  let path := if p = "" then "/" else p
                  { reply := ClientReply.forwarded
                      { targetOrigin := target.origin,
                        rewrittenUrl := stripTrailingSlashes target.pathname ++ path },
                    directoryAttempts := 1,
                    timerClearedInHandler := false,
                    closeHandlerRegistered := true }

/-- Node response headers: an ordered name/value list, one value per name.
`res.getHeader`: first (unique) binding of the name. -/
def getHeader : List (String × String) → String → Option String
  | [], _ => none
  | (k, v) :: rest, n => if k == n then some v else getHeader rest n

/-- `res.setHeader`: replace the binding when present, else append. -/
def setHeader : List (String × String) → String → String → List (String × String)
  | [], n, v => [(n, v)]
  | (k, w) :: rest, n, v =>
      if k == n then (k, v) :: rest else (k, w) :: setHeader rest n v

/-- Truthiness of a JavaScript header lookup `res.getHeader(n)`: both
`undefined` (header absent) and the empty string are falsy. -/
def jsFalsy : Option String → Bool
  | none => true
  | some s => s.isEmpty

/-- The value a header carries after one hardening block: the default when
the lookup was falsy (absent or empty), the present value otherwise. -/
def hardenedValue (cur : Option String) (v : String) : String :=
  if jsFalsy cur then v else cur.getD v

/-- One `if (!res.getHeader(n)) res.setHeader(n, v)` block of the
`proxyRes` hook (src/server.ts lines 69-80): the guard is JavaScript
falsiness, so an absent header and a header holding the empty string both
trigger the set. -/
def hardenHeader (headers : List (String × String)) (n v : String) :
    List (String × String) :=
  if jsFalsy (getHeader headers n) then setHeader headers n v else headers

/-- The whole `proxyRes` response-hardening hook (src/server.ts lines
67-81): the four security headers, each set only when absent. -/
def hardenResponse (headers : List (String × String)) : List (String × String) :=
  hardenHeader
    (hardenHeader
      (hardenHeader
        (hardenHeader headers "x-content-type-options" "nosniff")
        "x-frame-options" "DENY")
      "x-xss-protection" "1; mode=block")
    "referrer-policy" "same-origin"

/-- Modelled from the spec: src/ contains no Stream Duplicator (request
bodies reach the transport engine unforked), so the fork primitive of spec
section 4.3 is modelled here. An event is a source chunk arriving (queued
on both branches) or one branch's consumer taking its next queued chunk. -/
inductive DupEvent where
  | push (chunk : List Nat)
  | readPeek
  | readForward

/-- Modelled from the spec: state of one forked stream, per branch a queue
of not-yet-consumed chunks and the list of chunks already delivered. -/
structure DupState where
  peekQueue : List (List Nat)
  forwardQueue : List (List Nat)
  peekDelivered : List (List Nat)
  forwardDelivered : List (List Nat)
deriving Repr, DecidableEq

/-- Modelled from the spec: the initial state of a fork. -/
def dupInit : DupState :=
  { peekQueue := [], forwardQueue := [], peekDelivered := [], forwardDelivered := [] }

/-- Modelled from the spec: one transition of the duplicator. A pushed
chunk is appended to both branch queues; a read moves the head chunk of
that branch's queue to its delivered list (and is a no-op on an empty
queue, i.e. the consumer waits). -/
def dupStep (s : DupState) : DupEvent → DupState
  | DupEvent.push c =>
      { s with peekQueue := s.peekQueue ++ [c], forwardQueue := s.forwardQueue ++ [c] }
  | DupEvent.readPeek =>
      match s.peekQueue with
      | [] => s
      | c :: rest =>
          { s with peekQueue := rest, peekDelivered := s.peekDelivered ++ [c] }
  | DupEvent.readForward =>
      match s.forwardQueue with
      | [] => s
      | c :: rest =>
          { s with forwardQueue := rest, forwardDelivered := s.forwardDelivered ++ [c] }

/-- Modelled from the spec: run a fork from the initial state over a
schedule of events. -/
def dupRun (events : List DupEvent) : DupState := events.foldl dupStep dupInit

/-- The bytes the source delivered over a schedule, in order. -/
def pushedBytes (events : List DupEvent) : List Nat :=
  (events.filterMap (fun e =>
    match e with
    | DupEvent.push c => some c
    | _ => none)).flatten

/-! ### Helper lemmas -/

theorem chars_append (s t : String) : chars (s ++ t) = chars s ++ chars t := by
  cases s
  cases t
  rfl

theorem mk_chars (s : String) : String.mk (chars s) = s := by
  cases s
  rfl

theorem leadsWith_extend (n l t : List Char) (h : leadsWith n l = true) :
    leadsWith n (l ++ t) = true := by
  induction n generalizing l with
  | nil => simp [leadsWith]
  | cons a as ih =>
    cases l with
    | nil => simp [leadsWith] at h
    | cons c cs =>
      simp only [leadsWith, Bool.and_eq_true] at h
      simp only [List.cons_append, leadsWith, Bool.and_eq_true]
      exact ⟨h.1, ih cs h.2⟩

theorem containsSeq_nil_needle (l : List Char) : containsSeq [] l = true := by
  induction l with
  | nil => rfl
  | cons c cs ih => simp [containsSeq, leadsWith]

theorem containsSeq_append_right (n a b : List Char) (h : containsSeq n a = true) :
    containsSeq n (a ++ b) = true := by
  induction a with
  | nil =>
    simp only [containsSeq, List.isEmpty_iff] at h
    subst h
    exact containsSeq_nil_needle b
  | cons c cs ih =>
    simp only [containsSeq, Bool.or_eq_true] at h
    simp only [List.cons_append, containsSeq, Bool.or_eq_true]
    cases h with
    | inl h => exact Or.inl (leadsWith_extend n (c :: cs) b h)
    | inr h => exact Or.inr (ih h)

theorem containsSub_append_right (a b needle : String)
    (h : containsSub a needle = true) : containsSub (a ++ b) needle = true := by
  unfold containsSub at h ⊢
  rw [chars_append]
  exact containsSeq_append_right _ _ _ h

theorem takeWhile_of_all {α : Type} (p : α → Bool) (l : List α)
    (h : ∀ c ∈ l, p c = true) : l.takeWhile p = l := by
  induction l with
  | nil => rfl
  | cons c cs ih =>
    simp only [List.takeWhile_cons, h c (List.mem_cons_self c cs), if_true]
    exact congrArg (c :: ·) (ih fun x hx => h x (List.mem_cons_of_mem c hx))

theorem splitChar_ne_nil (sep : Char) (l : List Char) : splitChar sep l ≠ [] := by
  cases l with
  | nil => simp [splitChar]
  | cons c cs =>
    simp only [splitChar]
    rcases h : splitChar sep cs with _ | ⟨g, gs⟩
    · simp
    · by_cases hc : c = sep <;> simp [hc]

theorem mapCaughtError_unmapped (msg : String)
    (h1 : containsSub msg "Permission denied" = false)
    (h2 : containsSub msg "Invalid host format" = false)
    (h3 : containsSub msg "Failed to fetch" = false)
    (h4 : containsSub msg "Network error" = false)
    (h5 : containsSub msg "Invalid JSON" = false)
    (h6 : containsSub msg "Invalid response format" = false) :
    mapCaughtError msg = (500, "Internal server error") := by
  simp [mapCaughtError, h1, h2, h3, h4, h5, h6]

theorem mapCaughtError_status_ne_401 (msg : String) : (mapCaughtError msg).1 ≠ 401 := by
  unfold mapCaughtError
  split
  · simp
  · split
    · simp
    · split
      · simp
      · split <;> simp

theorem handleRequest_resolved (host proxyId targetUrl reqUrl bodyStream : String)
    (dir : DirectoryOutcome) (target : URLRec)
    (hid : extractProxyId host = Except.ok proxyId)
    (hfetch : fetchTargetUrl proxyId dir = Except.ok targetUrl)
    (hurl : parseHttpUrl targetUrl = some target) :
    handleRequest (some host) reqUrl bodyStream dir =
      { reply := ClientReply.forwarded
          { targetOrigin := target.origin,
            rewrittenUrl := stripTrailingSlashes target.pathname ++
              (if legacyParsePath reqUrl = "" then "/" else legacyParsePath reqUrl) },
        directoryAttempts := 1,
        timerClearedInHandler := false,
        closeHandlerRegistered := true } := by
  simp [handleRequest, hid, hfetch, hurl]

theorem getHeader_setHeader_self (headers : List (String × String)) (n v : String) :
    getHeader (setHeader headers n v) n = some v := by
  induction headers with
  | nil => simp [setHeader, getHeader]
  | cons p rest ih =>
    obtain ⟨k, w⟩ := p
    by_cases hk : k = n
    · simp [setHeader, getHeader, hk]
    · simp [setHeader, getHeader, hk, ih]

theorem getHeader_setHeader_ne (headers : List (String × String)) (n v m : String)
    (h : m ≠ n) : getHeader (setHeader headers n v) m = getHeader headers m := by
  have hnm : ¬(n = m) := fun hh => h hh.symm
  induction headers with
  | nil => simp [setHeader, getHeader, hnm]
  | cons p rest ih =>
    obtain ⟨k, w⟩ := p
    by_cases hk : k = n
    · subst hk
      simp [setHeader, getHeader, hnm]
    · simp [setHeader, getHeader, hk, ih]

theorem getHeader_hardenHeader_self (headers : List (String × String)) (n v : String) :
    getHeader (hardenHeader headers n v) n = some (hardenedValue (getHeader headers n) v) := by
  unfold hardenHeader hardenedValue
  cases h : jsFalsy (getHeader headers n) with
  | true => simp [getHeader_setHeader_self]
  | false =>
    simp only [Bool.false_eq_true, if_false]
    cases hg : getHeader headers n with
    | none => rw [hg] at h; simp [jsFalsy] at h
    | some s => simp

theorem getHeader_hardenHeader_ne (headers : List (String × String)) (n v m : String)
    (h : m ≠ n) : getHeader (hardenHeader headers n v) m = getHeader headers m := by
  unfold hardenHeader
  split
  · exact getHeader_setHeader_ne headers n v m h
  · rfl

theorem hardenHeader_of_notFalsy (headers : List (String × String)) (n v : String)
    (h : jsFalsy (getHeader headers n) = false) : hardenHeader headers n v = headers := by
  unfold hardenHeader
  rw [if_neg]
  simp [h]

theorem hardenedValue_isEmpty_false (cur : Option String) (v : String)
    (hv : v.isEmpty = false) : (hardenedValue cur v).isEmpty = false := by
  unfold hardenedValue jsFalsy
  cases cur with
  | none => simpa using hv
  | some s =>
    cases hs : s.isEmpty with
    | true => simpa [hs] using hv
    | false => simp [hs]

theorem dupRun_forward_conservation (events : List DupEvent) (s : DupState) :
    ((events.foldl dupStep s).forwardDelivered ++ (events.foldl dupStep s).forwardQueue).flatten
      = (s.forwardDelivered ++ s.forwardQueue).flatten ++ pushedBytes events := by
  induction events generalizing s with
  | nil => simp [pushedBytes]
  | cons e es ih =>
    simp only [List.foldl_cons]
    rw [ih]
    cases e with
    | push c =>
      simp [dupStep, pushedBytes, List.filterMap_cons, List.flatten_append, List.append_assoc]
    | readPeek =>
      cases hq : s.peekQueue with
      | nil => simp [dupStep, hq, pushedBytes]
      | cons chunk rest => simp [dupStep, hq, pushedBytes]
    | readForward =>
      cases hq : s.forwardQueue with
      | nil => simp [dupStep, hq, pushedBytes]
      | cons chunk rest =>
        simp [dupStep, hq, pushedBytes, List.flatten_append, List.append_assoc]

theorem hardenResponse_of_allNotFalsy (hs : List (String × String))
    (hcto : jsFalsy (getHeader hs "x-content-type-options") = false)
    (hfro : jsFalsy (getHeader hs "x-frame-options") = false)
    (hxss : jsFalsy (getHeader hs "x-xss-protection") = false)
    (hrp : jsFalsy (getHeader hs "referrer-policy") = false) :
    hardenResponse hs = hs := by
  unfold hardenResponse
  rw [hardenHeader_of_notFalsy hs "x-content-type-options" "nosniff" hcto,
      hardenHeader_of_notFalsy hs "x-frame-options" "DENY" hfro,
      hardenHeader_of_notFalsy hs "x-xss-protection" "1; mode=block" hxss,
      hardenHeader_of_notFalsy hs "referrer-policy" "same-origin" hrp]

/-! ### Claim theorems -/

/-- C6: for every host header value with at least three dot-separated
labels, extraction returns exactly the first label; for a host with fewer
than three labels the handler replies 400 with the invalid-host message,
and for an absent host header it replies 400 with the missing-host
message. -/
theorem hostExtraction_firstLabel_or_400 (host : String) :
    (3 ≤ (jsSplitDot host).length →
      extractProxyId host = Except.ok ((jsSplitDot host).headD ""))
  ∧ ((jsSplitDot host).length < 3 →
      ∀ reqUrl bodyStream dir,
        (handleRequest (some host) reqUrl bodyStream dir).reply =
          ClientReply.reply 400
            "Invalid host format. Expected format: <proxy-id>.<domain>.<tld>")
  ∧ (∀ reqUrl bodyStream dir,
      (handleRequest none reqUrl bodyStream dir).reply =
        ClientReply.reply 400 "Host header is missing") := by
  refine ⟨?_, ?_, ?_⟩
  · intro h
    unfold extractProxyId
    rw [if_neg (by omega)]
  · intro h reqUrl bodyStream dir
    have hE : extractProxyId host =
        Except.error "Invalid host format. Expected format: <proxy-id>.<domain>.<tld>" := by
      unfold extractProxyId
      rw [if_pos h]
    simp only [handleRequest, hE]
    decide
  · intro reqUrl bodyStream dir
    rfl

/-- Witness for C6 at concrete hosts: a three-label host extracts its first
label, a one-label host gets 400, an absent host gets 400. -/
theorem hostExtraction_firstLabel_or_400_witness :
    extractProxyId "abc.example.com" = Except.ok "abc"
  ∧ (handleRequest (some "localhost") "/" ""
        (DirectoryOutcome.networkError "down")).reply =
      ClientReply.reply 400
        "Invalid host format. Expected format: <proxy-id>.<domain>.<tld>"
  ∧ (handleRequest none "/" "" (DirectoryOutcome.networkError "down")).reply =
      ClientReply.reply 400 "Host header is missing" := by
  refine ⟨?_, ?_, ?_⟩
  · have h := (hostExtraction_firstLabel_or_400 "abc.example.com").1 (by decide)
    rwa [(by decide : (jsSplitDot "abc.example.com").headD "" = "abc")] at h
  · exact (hostExtraction_firstLabel_or_400 "localhost").2.1 (by decide) "/" "" _
  · exact (hostExtraction_firstLabel_or_400 "x").2.2 "/" "" _

/-- C10: a host whose first character is a dot but which still splits into
at least three dot-separated labels passes extraction with the empty
string as routing identifier, and the directory lookup URL is built with
that empty identifier verbatim. -/
theorem emptyFirstLabel_accepted (host : String)
    (hdot : (chars host).head? = some '.')
    (hlen : 3 ≤ (jsSplitDot host).length) :
    extractProxyId host = Except.ok ""
  ∧ directoryFetchUrl "" = "https://guardup.ai/api/servers/" := by
  have hfirst : (jsSplitDot host).headD "" = "" := by
    rcases hcs : chars host with _ | ⟨c, cs⟩
    · rw [hcs] at hdot
      simp at hdot
    · rw [hcs] at hdot
      simp only [List.head?_cons, Option.some.injEq] at hdot
      subst hdot
      rcases hsp : splitChar '.' cs with _ | ⟨g, gs⟩
      · exact absurd hsp (splitChar_ne_nil '.' cs)
      · simp [jsSplitDot, hcs, splitChar, hsp]
  refine ⟨?_, rfl⟩
  unfold extractProxyId
  rw [if_neg (by omega), hfirst]

/-- Witness for C10 at the concrete host `.example.com`. -/
theorem emptyFirstLabel_accepted_witness :
    extractProxyId ".example.com" = Except.ok ""
  ∧ directoryFetchUrl "" = "https://guardup.ai/api/servers/" :=
  emptyFirstLabel_accepted ".example.com" (by decide) (by decide)

/-- C9 (code bug): on the early-return path taken when the host header is
absent, the handler replies 400 but neither runs `clearTimeout` nor
registers the `close` handler that would, so the 30-second per-request
timer stays armed after the request completes. -/
theorem missingHost_leaksTimer (reqUrl bodyStream : String) (dir : DirectoryOutcome) :
    (handleRequest none reqUrl bodyStream dir).reply =
        ClientReply.reply 400 "Host header is missing"
  ∧ (handleRequest none reqUrl bodyStream dir).timerEventuallyCleared = false :=
  ⟨rfl, rfl⟩

/-- C2 (modelled from the spec, no Stream Duplicator exists in src/): over
every schedule of source pushes and branch reads, once the forward branch
has drained its queue the concatenation of the chunks it received equals
the bytes the source delivered, byte for byte and in order, regardless of
how the peek branch was consumed. -/
theorem streamDuplicator_forward_roundtrip (events : List DupEvent)
    (hdrained : (dupRun events).forwardQueue = []) :
    ((dupRun events).forwardDelivered).flatten = pushedBytes events := by
  have h := dupRun_forward_conservation events dupInit
  simp only [dupInit, List.append_nil, List.flatten_nil, List.nil_append] at h
  have h2 : ((dupRun events).forwardDelivered ++ (dupRun events).forwardQueue).flatten
      = pushedBytes events := h
  rw [hdrained] at h2
  simpa using h2

/-- Witness for C2: a schedule with two pushes where the peek branch reads
only the first chunk while the forward branch drains both. -/
theorem streamDuplicator_forward_roundtrip_witness :
    ((dupRun [DupEvent.push [104, 105], DupEvent.readPeek, DupEvent.push [33],
        DupEvent.readForward, DupEvent.readForward]).forwardDelivered).flatten =
      pushedBytes [DupEvent.push [104, 105], DupEvent.readPeek, DupEvent.push [33],
        DupEvent.readForward, DupEvent.readForward] :=
  streamDuplicator_forward_roundtrip
    [DupEvent.push [104, 105], DupEvent.readPeek, DupEvent.push [33],
      DupEvent.readForward, DupEvent.readForward] (by decide)

/-- C8 counterexample: a header present with the empty string is falsy to
the JavaScript guard `!res.getHeader(n)` and gets overwritten —
`x-frame-options: ""` becomes `DENY` — so the hardener neither sets
headers only when absent nor leaves every already-present value
unchanged. -/
theorem presentEmptyHeader_overwritten :
    getHeader (hardenResponse [("x-frame-options", "")]) "x-frame-options" =
      some "DENY" :=
  rfl

/-- C8 amended: the response hardener sets each of the four security
headers exactly when the header is absent or present with the empty
string (the JavaScript falsy test), overwriting an empty value with the
default and keeping any nonempty present value — and applying it twice
yields the same headers as applying it once. -/
theorem responseHardener_falsyOverwrite_idem (headers : List (String × String)) :
    getHeader (hardenResponse headers) "x-content-type-options" =
      some (hardenedValue (getHeader headers "x-content-type-options") "nosniff")
  ∧ getHeader (hardenResponse headers) "x-frame-options" =
      some (hardenedValue (getHeader headers "x-frame-options") "DENY")
  ∧ getHeader (hardenResponse headers) "x-xss-protection" =
      some (hardenedValue (getHeader headers "x-xss-protection") "1; mode=block")
  ∧ getHeader (hardenResponse headers) "referrer-policy" =
      some (hardenedValue (getHeader headers "referrer-policy") "same-origin")
  ∧ hardenResponse (hardenResponse headers) = hardenResponse headers := by
  have h1 : getHeader (hardenResponse headers) "x-content-type-options" =
      some (hardenedValue (getHeader headers "x-content-type-options") "nosniff") := by
    unfold hardenResponse
    rw [getHeader_hardenHeader_ne _ _ _ _ (by decide),
        getHeader_hardenHeader_ne _ _ _ _ (by decide),
        getHeader_hardenHeader_ne _ _ _ _ (by decide),
        getHeader_hardenHeader_self]
  have h2 : getHeader (hardenResponse headers) "x-frame-options" =
      some (hardenedValue (getHeader headers "x-frame-options") "DENY") := by
    unfold hardenResponse
    rw [getHeader_hardenHeader_ne _ _ _ _ (by decide),
        getHeader_hardenHeader_ne _ _ _ _ (by decide),
        getHeader_hardenHeader_self,
        getHeader_hardenHeader_ne _ _ _ _ (by decide)]
  have h3 : getHeader (hardenResponse headers) "x-xss-protection" =
      some (hardenedValue (getHeader headers "x-xss-protection") "1; mode=block") := by
    unfold hardenResponse
    rw [getHeader_hardenHeader_ne _ _ _ _ (by decide),
        getHeader_hardenHeader_self,
        getHeader_hardenHeader_ne _ _ _ _ (by decide),
        getHeader_hardenHeader_ne _ _ _ _ (by decide)]
  have h4 : getHeader (hardenResponse headers) "referrer-policy" =
      some (hardenedValue (getHeader headers "referrer-policy") "same-origin") := by
    unfold hardenResponse
    rw [getHeader_hardenHeader_self,
        getHeader_hardenHeader_ne _ _ _ _ (by decide),
        getHeader_hardenHeader_ne _ _ _ _ (by decide),
        getHeader_hardenHeader_ne _ _ _ _ (by decide)]
  refine ⟨h1, h2, h3, h4, ?_⟩
  exact hardenResponse_of_allNotFalsy (hardenResponse headers)
    (by rw [h1]; exact hardenedValue_isEmpty_false _ _ rfl)
    (by rw [h2]; exact hardenedValue_isEmpty_false _ _ rfl)
    (by rw [h3]; exact hardenedValue_isEmpty_false _ _ rfl)
    (by rw [h4]; exact hardenedValue_isEmpty_false _ _ rfl)

/-- C1 counterexample: a request whose directory response carries
`requireAuth: true` and whose body contains `"method":"invoke_something"`
is handed to the forwarding transport engine (no 401 is sent): the route
decision carries no auth flag and the body is never inspected. -/
theorem invokeBody_requireAuthTrue_forwarded :
    (handleRequest (some "abc.example.com") "/"
        "\x7b\"method\":\"invoke_something\"\x7d"
        (DirectoryOutcome.response 200 "OK"
          (some (Json.obj [("url", Json.str "https://backend.example.org/api"),
                           ("requireAuth", Json.bool true)])))).reply
      = ClientReply.forwarded
          { targetOrigin := "https://backend.example.org", rewrittenUrl := "/api/" } :=
  rfl

/-- C1 amended: the gateway never answers 401 on any path, and its outcome
does not depend on the request body at all. -/
theorem gateway_never_401_and_ignores_body (host : Option String)
    (reqUrl bodyStream : String) (dir : DirectoryOutcome) :
    (∀ s, (handleRequest host reqUrl bodyStream dir).reply ≠ ClientReply.reply 401 s)
  ∧ handleRequest host reqUrl bodyStream dir = handleRequest host reqUrl "" dir := by
  constructor
  · intro s hcontra
    cases host with
    | none => simp [handleRequest] at hcontra
    | some h =>
      cases hE : extractProxyId h with
      | error msg =>
        simp only [handleRequest, hE] at hcontra
        rw [ClientReply.reply.injEq] at hcontra
        exact mapCaughtError_status_ne_401 msg hcontra.1
      | ok pid =>
        cases hF : fetchTargetUrl pid dir with
        | error msg =>
          simp only [handleRequest, hE, hF] at hcontra
          rw [ClientReply.reply.injEq] at hcontra
          exact mapCaughtError_status_ne_401 msg hcontra.1
        | ok turl =>
          cases hU : parseHttpUrl turl with
          | none =>
            simp only [handleRequest, hE, hF, hU] at hcontra
            rw [ClientReply.reply.injEq] at hcontra
            exact mapCaughtError_status_ne_401 _ hcontra.1
          | some target =>
            simp [handleRequest, hE, hF, hU] at hcontra
  · rfl

/-- Witness for C1 amended at a concrete request with an invoke-shaped
body: the reply is not a 401 and equals the reply to the same request with
an empty body. -/
theorem gateway_never_401_and_ignores_body_witness :
    (handleRequest (some "abc.example.com") "/" "\x7b\"method\":\"invoke_x\"\x7d"
        (DirectoryOutcome.networkError "down")).reply ≠ ClientReply.reply 401 "x"
  ∧ handleRequest (some "abc.example.com") "/" "\x7b\"method\":\"invoke_x\"\x7d"
        (DirectoryOutcome.networkError "down")
      = handleRequest (some "abc.example.com") "/" ""
          (DirectoryOutcome.networkError "down") :=
  ⟨(gateway_never_401_and_ignores_body (some "abc.example.com") "/"
      "\x7b\"method\":\"invoke_x\"\x7d" (DirectoryOutcome.networkError "down")).1 "x",
   (gateway_never_401_and_ignores_body (some "abc.example.com") "/"
      "\x7b\"method\":\"invoke_x\"\x7d" (DirectoryOutcome.networkError "down")).2⟩

/-- C3 counterexample: a 403 from the directory service is answered to the
client as 403 Permission denied, not as 502 (one directory attempt is
made). -/
theorem directory403_maps_to_403 :
    (handleRequest (some "abc.example.com") "/" ""
        (DirectoryOutcome.response 403 "Forbidden" none)).reply =
      ClientReply.reply 403 "Permission denied"
  ∧ (handleRequest (some "abc.example.com") "/" ""
        (DirectoryOutcome.response 403 "Forbidden" none)).directoryAttempts = 1 :=
  ⟨rfl, rfl⟩

/-- C3 amended: for a non-success directory status other than 403 the
client receives 502 after exactly one directory attempt (provided the
interpolated failure message does not accidentally contain another
mapping's marker substring); a 403 maps to 403 instead. -/
theorem directoryNon2xx_maps_to_502 (host proxyId reqUrl bodyStream statusText : String)
    (status : Nat) (jbody : Option Json)
    (hid : extractProxyId host = Except.ok proxyId)
    (hfail : responseOk status = false)
    (h403 : status ≠ 403)
    (hpd : containsSub (fetchFailureMessage proxyId status statusText)
        "Permission denied" = false)
    (hhf : containsSub (fetchFailureMessage proxyId status statusText)
        "Invalid host format" = false) :
    (handleRequest (some host) reqUrl bodyStream
        (DirectoryOutcome.response status statusText jbody)).reply =
      ClientReply.reply 502 "Unable to connect to the upstream server"
  ∧ (handleRequest (some host) reqUrl bodyStream
        (DirectoryOutcome.response status statusText jbody)).directoryAttempts = 1 := by
  have hb : (status == 403) = false := beq_eq_false_iff_ne.mpr h403
  have hF : fetchTargetUrl proxyId (DirectoryOutcome.response status statusText jbody)
      = Except.error (fetchFailureMessage proxyId status statusText) := by
    simp [fetchTargetUrl, hb, hfail]
  have hff : containsSub (fetchFailureMessage proxyId status statusText)
      "Failed to fetch" = true := by
    unfold fetchFailureMessage
    apply containsSub_append_right
    apply containsSub_append_right
    apply containsSub_append_right
    apply containsSub_append_right
    apply containsSub_append_right
    decide
  simp [handleRequest, hid, hF, mapCaughtError, hpd, hhf, hff]

/-- Witness for C3 amended: directory answers 500, client gets 502. -/
theorem directoryNon2xx_maps_to_502_witness :
    (handleRequest (some "abc.example.com") "/" ""
        (DirectoryOutcome.response 500 "Internal Server Error" none)).reply =
      ClientReply.reply 502 "Unable to connect to the upstream server" :=
  (directoryNon2xx_maps_to_502 "abc.example.com" "abc" "/" "" "Internal Server Error"
    500 none rfl (by decide) (by decide) (by decide) (by decide)).1

/-- C4 counterexample: when the directory returns a target URL that fails
URL parsing, the client receives 500 Internal server error, not 502. -/
theorem invalidTargetUrl_yields_500 :
    (handleRequest (some "abc.example.com") "/" ""
        (DirectoryOutcome.response 200 "OK"
          (some (Json.obj [("url", Json.str "notaurl")])))).reply
      = ClientReply.reply 500 "Internal server error" :=
  rfl

/-- C4 amended: a resolved target URL that fails URL parsing makes the
request fail with 500 Internal server error — the thrown invalid-URL
message matches none of the catch-block substring rules (provided the
interpolated URL itself does not contain one of the marker substrings). -/
theorem invalidTargetUrl_maps_to_500 (host proxyId targetUrl reqUrl bodyStream : String)
    (dir : DirectoryOutcome)
    (hid : extractProxyId host = Except.ok proxyId)
    (hfetch : fetchTargetUrl proxyId dir = Except.ok targetUrl)
    (hbad : parseHttpUrl targetUrl = none)
    (h1 : containsSub ("Invalid target URL format: " ++ targetUrl)
        "Permission denied" = false)
    (h2 : containsSub ("Invalid target URL format: " ++ targetUrl)
        "Invalid host format" = false)
    (h3 : containsSub ("Invalid target URL format: " ++ targetUrl)
        "Failed to fetch" = false)
    (h4 : containsSub ("Invalid target URL format: " ++ targetUrl)
        "Network error" = false)
    (h5 : containsSub ("Invalid target URL format: " ++ targetUrl)
        "Invalid JSON" = false)
    (h6 : containsSub ("Invalid target URL format: " ++ targetUrl)
        "Invalid response format" = false) :
    (handleRequest (some host) reqUrl bodyStream dir).reply =
      ClientReply.reply 500 "Internal server error" := by
  simp [handleRequest, hid, hfetch, hbad,
    mapCaughtError_unmapped _ h1 h2 h3 h4 h5 h6]

/-- Witness for C4 amended at a concrete unparseable target URL. -/
theorem invalidTargetUrl_maps_to_500_witness :
    (handleRequest (some "svc.example.com") "/x" ""
        (DirectoryOutcome.response 200 "OK"
          (some (Json.obj [("url", Json.str "not a url")])))).reply =
      ClientReply.reply 500 "Internal server error" :=
  invalidTargetUrl_maps_to_500 "svc.example.com" "svc" "not a url" "/x" ""
    (DirectoryOutcome.response 200 "OK"
      (some (Json.obj [("url", Json.str "not a url")])))
    rfl rfl rfl (by decide) (by decide) (by decide) (by decide) (by decide) (by decide)

/-- C5 counterexample: a directory response whose `requireAuth` field is
mistyped (a string, not a boolean) is accepted — resolution succeeds on
the `url` field alone and the request is forwarded, with no 502. -/
theorem missingRequireAuth_accepted :
    fetchTargetUrl "abc"
        (DirectoryOutcome.response 200 "OK"
          (some (Json.obj [("url", Json.str "https://backend.example.org/api"),
                           ("requireAuth", Json.str "notabool")]))) =
      Except.ok "https://backend.example.org/api"
  ∧ (handleRequest (some "abc.example.com") "/" ""
        (DirectoryOutcome.response 200 "OK"
          (some (Json.obj [("url", Json.str "https://backend.example.org/api"),
                           ("requireAuth", Json.str "notabool")])))).reply
      = ClientReply.forwarded
          { targetOrigin := "https://backend.example.org", rewrittenUrl := "/api/" } :=
  ⟨rfl, rfl⟩

/-- C5 amended: on a success status, resolution fails with 502 exactly
when the body is not parseable as JSON or the `url` field is missing or
mistyped; the `requireAuth` field is never validated — any shape of
`requireAuth` (including its absence) leaves resolution successful
whenever `url` is a string. -/
theorem directoryResponse_urlOnlyValidation
    (host proxyId reqUrl bodyStream statusText : String) (status : Nat)
    (jbody : Option Json)
    (hid : extractProxyId host = Except.ok proxyId)
    (hok : responseOk status = true) :
    (jbody = none →
      (handleRequest (some host) reqUrl bodyStream
          (DirectoryOutcome.response status statusText jbody)).reply
        = ClientReply.reply 502 "Invalid response from the upstream server")
  ∧ (∀ data, jbody = some data →
      (∀ u, data.getField "url" ≠ some (Json.str u)) →
      (handleRequest (some host) reqUrl bodyStream
          (DirectoryOutcome.response status statusText jbody)).reply
        = ClientReply.reply 502 "Invalid response from the upstream server")
  ∧ (∀ data u, jbody = some data → data.getField "url" = some (Json.str u) →
      fetchTargetUrl proxyId (DirectoryOutcome.response status statusText jbody)
        = Except.ok u) := by
  have h403 : (status == 403) = false := by
    apply beq_eq_false_iff_ne.mpr
    simp only [responseOk, Bool.and_eq_true, decide_eq_true_eq] at hok
    omega
  refine ⟨?_, ?_, ?_⟩
  · intro hj
    subst hj
    have hF : fetchTargetUrl proxyId (DirectoryOutcome.response status statusText none)
        = Except.error "Invalid JSON response from server" := by
      simp [fetchTargetUrl, h403, hok]
    simp only [handleRequest, hid, hF]
    decide
  · intro data hj hnu
    subst hj
    have hF : fetchTargetUrl proxyId
        (DirectoryOutcome.response status statusText (some data))
        = Except.error "Invalid response format from server" := by
      cases hg : data.getField "url" with
      | none => simp [fetchTargetUrl, h403, hok, hg]
      | some j =>
        cases j with
        | null => simp [fetchTargetUrl, h403, hok, hg]
        | bool b => simp [fetchTargetUrl, h403, hok, hg]
        | num n => simp [fetchTargetUrl, h403, hok, hg]
        | str u => exact absurd hg (hnu u)
        | arr xs => simp [fetchTargetUrl, h403, hok, hg]
        | obj fs => simp [fetchTargetUrl, h403, hok, hg]
    simp only [handleRequest, hid, hF]
    decide
  · intro data u hj hget
    subst hj
    simp [fetchTargetUrl, h403, hok, hget]

/-- Witness for C5 amended: an unparseable body yields a 502, and a body
with only a string `url` (no `requireAuth` at all) resolves successfully. -/
theorem directoryResponse_urlOnlyValidation_witness :
    (handleRequest (some "abc.example.com") "/" ""
        (DirectoryOutcome.response 200 "OK" none)).reply
      = ClientReply.reply 502 "Invalid response from the upstream server"
  ∧ fetchTargetUrl "abc"
        (DirectoryOutcome.response 200 "OK"
          (some (Json.obj [("url", Json.str "https://b.example.org")])))
      = Except.ok "https://b.example.org" := by
  constructor
  · exact (directoryResponse_urlOnlyValidation "abc.example.com" "abc" "/" "" "OK"
      200 none rfl (by decide)).1 rfl
  · exact (directoryResponse_urlOnlyValidation "abc.example.com" "abc" "/" "" "OK"
      200 (some (Json.obj [("url", Json.str "https://b.example.org")])) rfl
      (by decide)).2.2 (Json.obj [("url", Json.str "https://b.example.org")])
      "https://b.example.org" rfl rfl

/-- C7: for every request on the fully resolved path, the forwarded
request goes to the target URL's origin and its path is the target's base
path with trailing slashes removed, concatenated with the original path
and query. -/
theorem forwarding_rewrite_spec (host proxyId targetUrl reqUrl bodyStream : String)
    (dir : DirectoryOutcome) (target : URLRec)
    (hid : extractProxyId host = Except.ok proxyId)
    (hfetch : fetchTargetUrl proxyId dir = Except.ok targetUrl)
    (hurl : parseHttpUrl targetUrl = some target)
    (hnohash : ∀ c ∈ chars reqUrl, (c != '#') = true)
    (hne : reqUrl ≠ "") :
    (handleRequest (some host) reqUrl bodyStream dir).reply =
      ClientReply.forwarded
        { targetOrigin := target.scheme ++ "://" ++ target.host,
          rewrittenUrl := stripTrailingSlashes target.pathname ++ reqUrl } := by
  have hp : legacyParsePath reqUrl = reqUrl := by
    unfold legacyParsePath
    rw [takeWhile_of_all _ _ hnohash, mk_chars]
  rw [handleRequest_resolved host proxyId targetUrl reqUrl bodyStream dir target
    hid hfetch hurl]
  simp [hp, hne, URLRec.origin]

/-- Witness for C7: the end-to-end scenario of the spec — directory answer
`https://backend.example.org/api`, original path `/foo?x=1`, rewritten
path `/api/foo?x=1`, target origin `https://backend.example.org`. -/
theorem forwarding_rewrite_spec_witness :
    (handleRequest (some "abc.example.com") "/foo?x=1" ""
        (DirectoryOutcome.response 200 "OK"
          (some (Json.obj [("url", Json.str "https://backend.example.org/api")])))).reply =
      ClientReply.forwarded
        { targetOrigin := "https://backend.example.org",
          rewrittenUrl := "/api/foo?x=1" } :=
  forwarding_rewrite_spec "abc.example.com" "abc" "https://backend.example.org/api"
    "/foo?x=1" ""
    (DirectoryOutcome.response 200 "OK"
      (some (Json.obj [("url", Json.str "https://backend.example.org/api")])))
    { scheme := "https", host := "backend.example.org", pathname := "/api", search := "" }
    rfl rfl rfl (by decide) (by decide)

end GuardUp
